import Mathlib

/-!
Shallow embedding of the Cologne Ologist checkout backend
(`POST /create-checkout-session`, `POST /webhook` of the coupon-enabled
variant), together with proofs of the specified pricing and
reconciliation properties.

JavaScript numbers that hold minor-currency amounts are modelled as
integers (`Nat` for unit prices and quantities, `Int` for derived
amounts); `Math.round` is modelled over `ℚ` as `⌊q + 1/2⌋`, which is the
JavaScript half-up rounding rule.
-/

namespace Cologne

/-- JavaScript `Math.round`: round half toward positive infinity. -/
def jsRound (q : ℚ) : ℤ := ⌊q + 1/2⌋

/-- JavaScript truthiness of a possibly-absent string field:
`undefined` and the empty string are falsy. -/
def jsTruthyStr : Option String → Bool
  | none => false
  | some s => s ≠ ""

/-- A cart item as supplied by the caller of `/create-checkout-session`. -/
structure CartItem where
  id : String
  name : String
  description : Option String
  image_url : Option String
  price : ℕ
  quantity : ℕ
  deriving Repr, DecidableEq

/-- A coupon as supplied by the caller; the discount type is the raw
string the handler branches on. -/
structure Coupon where
  id : String
  code : String
  discount_type : String
  discount_value : ℤ
  deriving Repr, DecidableEq

/-- `subtotal = items.reduce((sum, item) => sum + item.price * item.quantity, 0)`. -/
def calcSubtotal (items : List CartItem) : ℕ :=
  items.foldl (fun sum item => sum + item.price * item.quantity) 0

/-- The fixed jurisdiction tax rate `0.08875`, exactly. -/
def taxRate : ℚ := 8875 / 100000

/-- Result of the pricing block of the handler (lines 131–169):
subtotal, tax, discount, the coupon fields it latched, and the two
skip flags. -/
structure PricedCart where
  subtotal : ℕ
  taxAmount : ℤ
  discountAmount : ℤ
  couponId : Option String
  couponCode : Option String
  skipShipping : Bool
  skipTax : Bool
  deriving Repr, DecidableEq

/-- The coupon branch of the handler (lines 143–163): returns
(discountAmount, skipShipping, skipTax) exactly as the if/else-if chain
computes them from an initial state of `(0, false, false)`. -/
def applyCoupon (subtotal : ℕ) (c : Coupon) : ℤ × Bool × Bool :=
  if c.discount_type = "fixed_amount" then
    (min c.discount_value (subtotal : ℤ), false, false)
  else if c.discount_type = "percentage" then
    (jsRound ((c.discount_value : ℚ) / 100 * (subtotal : ℚ)), false, false)
  else if c.discount_type = "free_shipping" then
    (0, true, false)
  else if c.discount_type = "no_tax" then
    (0, false, true)
  else if c.discount_type = "full_discount" then
    (0, true, true)
  else
    (0, false, false)

/-- The pricing calculator (lines 131–169): subtotal, coupon branch,
then tax unless `skipTax`. -/
def priceCart (items : List CartItem) (coupon : Option Coupon) : PricedCart :=
  let subtotal := calcSubtotal items
  match coupon with
  | none =>
      { subtotal := subtotal
        taxAmount := jsRound ((subtotal : ℚ) * taxRate)
        discountAmount := 0
        couponId := none
        couponCode := none
        skipShipping := false
        skipTax := false }
  | some c =>
      let r := applyCoupon subtotal c
      { subtotal := subtotal
        taxAmount := if r.2.2 then 0 else jsRound ((subtotal : ℚ) * taxRate)
        discountAmount := r.1
        couponId := some c.id
        couponCode := some c.code
        skipShipping := r.2.1
        skipTax := r.2.2 }

/-- String-keyed product metadata attached to a gateway line item. -/
structure ProductMetadata where
  productId : Option String
  image_url : Option String
  deriving Repr, DecidableEq

/-- `product_data` of a gateway line item. -/
structure ProductData where
  name : String
  description : Option String
  images : List String
  metadata : ProductMetadata
  deriving Repr, DecidableEq

/-- `price_data` of a gateway line item. -/
structure PriceData where
  currency : String
  product_data : ProductData
  unit_amount : ℤ
  deriving Repr, DecidableEq

/-- A gateway line item as submitted at session creation. -/
structure LineItem where
  price_data : PriceData
  quantity : ℕ
  deriving Repr, DecidableEq

/-- Truthy-and-nonblank test the handler applies to `item.image_url`:
the value must be truthy and must not trim to the empty string. -/
def hasImage : Option String → Bool
  | none => false
  | some s => s.trim ≠ ""

/-- One gateway line item per cart item (lines 55–79): images and the
`image_url` metadata key are attached only when the image URL is
present and non-blank. -/
def cartLineItem (item : CartItem) : LineItem :=
  { price_data :=
      { currency := "usd"
        product_data :=
          { name := item.name
            description := item.description
            images := if hasImage item.image_url then [item.image_url.getD ""] else []
            metadata :=
              { productId := some item.id
                image_url := if hasImage item.image_url then item.image_url else none } }
        unit_amount := (item.price : ℤ) }
    quantity := item.quantity }

/-- The synthetic tax line item (lines 176–186); it carries no product
metadata. -/
def taxLineItem (taxAmount : ℤ) : LineItem :=
  { price_data :=
      { currency := "usd"
        product_data :=
          { name := "Sales Tax (8.875%)"
            description := some "NY State and Local Sales Tax"
            images := []
            metadata := { productId := none, image_url := none } }
        unit_amount := taxAmount }
    quantity := 1 }

/-- The synthetic negative-amount discount line item (lines 192–202);
it carries no product metadata. -/
def discountLineItem (couponCode : String) (discountAmount : ℤ) : LineItem :=
  { price_data :=
      { currency := "usd"
        product_data :=
          { name := "Discount: " ++ couponCode
            description := some "Coupon code discount"
            images := []
            metadata := { productId := none, image_url := none } }
        unit_amount := -discountAmount }
    quantity := 1 }

/-- A fixed-amount shipping rate tier. -/
structure ShippingRateData where
  amount : ℕ
  currency : String
  display_name : String
  delivery_min_days : ℕ
  delivery_max_days : ℕ
  deriving Repr, DecidableEq

/-- The two fixed shipping tiers (lines 88–129). -/
def shippingOptions : List ShippingRateData :=
  [ { amount := 499
      currency := "usd"
      display_name := "Standard Shipping"
      delivery_min_days := 5
      delivery_max_days := 7 },
    { amount := 999
      currency := "usd"
      display_name := "Express Shipping"
      delivery_min_days := 2
      delivery_max_days := 3 } ]

/-- A session-metadata value as the handler writes it: the JavaScript
object literal mixes strings and a raw number. -/
inductive MetaValue where
  | str (s : String)
  | num (n : ℤ)
  deriving Repr, DecidableEq

/-- Whether a metadata value is a string. -/
def MetaValue.isStr : MetaValue → Bool
  | .str _ => true
  | .num _ => false

/-- The metadata object stamped into the session (lines 214–221). -/
structure SessionMetadata where
  userId : MetaValue
  orderId : MetaValue
  taxAmount : MetaValue
  couponId : MetaValue
  couponCode : MetaValue
  discountAmount : MetaValue
  deriving Repr, DecidableEq

/-- The session-creation request the handler assembles (lines 207–238);
shipping fields are attached only when shipping is not skipped. -/
structure SessionParams where
  customer_email : String
  line_items : List LineItem
  metadata : SessionMetadata
  shipping_options : Option (List ShippingRateData)
  shipping_address_collection : Option (List String)
  deriving Repr, DecidableEq

/-- The whole session-construction path of the handler after validation
(lines 55–238): per-item line items, pricing, conditional synthetic tax
and discount lines, metadata, conditional shipping fields. The order id
generated by `randomUUID()` is a parameter. -/
def buildSessionParams (items : List CartItem) (coupon : Option Coupon)
    (userId email orderId : String) : SessionParams :=
  let lineItems := items.map cartLineItem
  let pc := priceCart items coupon
  let withTax :=
    if !pc.skipShipping && pc.taxAmount > 0 then lineItems ++ [taxLineItem pc.taxAmount]
    else lineItems
  let allLineItems :=
    if pc.discountAmount > 0 then
      withTax ++ [discountLineItem (pc.couponCode.getD "null") pc.discountAmount]
    else withTax
  { customer_email := email
    line_items := allLineItems
    metadata :=
      { userId := .str userId
        orderId := .str orderId
        taxAmount := .num pc.taxAmount
        couponId := .str (pc.couponId.getD "")
        couponCode := .str (pc.couponCode.getD "")
        discountAmount := .str (toString pc.discountAmount) }
    shipping_options := if pc.skipShipping then none else some shippingOptions
    shipping_address_collection := if pc.skipShipping then none else some ["US"] }

/-! ### Request validation gate of `POST /create-checkout-session` -/

/-- A raw request item before any validation: every field may be
absent. -/
structure RawItem where
  price : Option ℤ
  quantity : Option ℕ
  deriving Repr, DecidableEq

/-- The `items` field of the request body: absent (or otherwise falsy),
present but not an array, or an array. -/
inductive ItemsField where
  | missing
  | nonArray
  | arr (l : List RawItem)
  deriving Repr, DecidableEq

/-- `!items || !Array.isArray(items) || items.length === 0`
(line 51). -/
def itemsInvalid : ItemsField → Bool
  | .missing => true
  | .nonArray => true
  | .arr l => l.isEmpty

/-- Where the handler goes after the validation gate: a 400 response,
or onward to build the session and call the gateway. -/
inductive GateResult where
  | badRequest (status : ℕ) (msg : String)
  | proceedsToGateway
  deriving Repr, DecidableEq

/-- The validation gate of the handler (lines 51–53): the only check
before the gateway call is on the `items` field itself, never on the
fields of the entries. -/
def createCheckoutGate (items : ItemsField) : GateResult :=
  if itemsInvalid items then .badRequest 400 "Invalid items data" else .proceedsToGateway

/-! ### Webhook side -/

/-- Session metadata as read back on the webhook side: the gateway
stores metadata string-valued, so every field is a string. -/
structure WireMetadata where
  userId : String
  orderId : String
  taxAmount : String
  couponId : String
  couponCode : String
  discountAmount : String
  deriving Repr, DecidableEq

/-- The serialization the gateway applies of stamped metadata: strings pass
through unchanged, numbers are rendered in decimal. -/
def wireValue : MetaValue → String
  | .str s => s
  | .num n => toString n

/-- Serialize a stamped metadata object field-by-field. -/
def wireOf (m : SessionMetadata) : WireMetadata :=
  { userId := wireValue m.userId
    orderId := wireValue m.orderId
    taxAmount := wireValue m.taxAmount
    couponId := wireValue m.couponId
    couponCode := wireValue m.couponCode
    discountAmount := wireValue m.discountAmount }

/-- The slice of a `checkout.session.completed` event object the
handler reads (`event.data.object`). -/
structure StripeSession where
  id : String
  metadata : WireMetadata
  amount_total : ℤ
  deriving Repr, DecidableEq

/-- An expanded line item as returned by session retrieval: the handler
reads `item.price.product.metadata`, `item.quantity` and
`item.price.unit_amount`. -/
structure ExpLineItem where
  product_metadata : ProductMetadata
  quantity : ℕ
  unit_amount : ℤ
  deriving Repr, DecidableEq

/-- The expansion the gateway applies to of a submitted line item: product metadata,
quantity and unit amount are preserved. -/
def expand (li : LineItem) : ExpLineItem :=
  { product_metadata := li.price_data.product_data.metadata
    quantity := li.quantity
    unit_amount := li.price_data.unit_amount }

/-- `shipping_cost` of the expanded session. -/
structure ShippingCost where
  amount_total : ℤ
  display_name : Option String
  deriving Repr, DecidableEq

/-- The expanded session the webhook handler re-fetches. -/
structure ExpandedSession where
  line_items : List ExpLineItem
  shipping_cost : Option ShippingCost
  deriving Repr, DecidableEq

/-- An order item sent to persistence. -/
structure OrderItem where
  product_id : String
  quantity : ℕ
  price_at_time : ℤ
  image_url : Option String
  deriving Repr, DecidableEq

/-- The mapping of one genuine expanded line item to an order item
(lines 313–327): `image_url` is attached only when truthy in
metadata. -/
def mkOrderItem (it : ExpLineItem) : OrderItem :=
  { product_id := it.product_metadata.productId.getD ""
    quantity := it.quantity
    price_at_time := it.unit_amount
    image_url :=
      if jsTruthyStr it.product_metadata.image_url then it.product_metadata.image_url
      else none }

/-- `orderItems` of the webhook handler (lines 311–327): keep only line
items whose product metadata carries a truthy `productId`, then map
each to an order item. -/
def prepareOrderItems (lis : List ExpLineItem) : List OrderItem :=
  (lis.filter (fun it => jsTruthyStr it.product_metadata.productId)).map mkOrderItem

/-- JavaScript `parseInt` in base 10 on an already-trimmed model:
optional sign, then leading decimal digits; no digits means `NaN`,
modelled as `none`. -/
def parseIntJs (s : String) : Option ℤ :=
  let t := s.trim
  let core : ℤ × List Char :=
    match t.data with
    | '-' :: r => (-1, r)
    | '+' :: r => (1, r)
    | r => (1, r)
  let ds := core.2.takeWhile Char.isDigit
  if ds.isEmpty then none
  else some (core.1 * (ds.foldl (fun a c => 10 * a + ((c.toNat : ℤ) - 48)) 0))

/-- The argument object of the `process_stripe_webhook` RPC
(lines 340–352). -/
structure DbCall where
  session_id : String
  user_id : String
  order_id : String
  total : ℤ
  items : List OrderItem
  shipping_cost : ℤ
  shipping_name : String
  tax_amount : ℤ
  coupon_id : Option String
  coupon_code : Option String
  discount_amount : ℤ
  deriving Repr, DecidableEq

/-- The extraction-and-persistence block of the webhook handler for a
completed session (lines 306–352), given the re-fetched expanded
session. -/
def webhookDbCall (sess : StripeSession) (es : ExpandedSession) : DbCall :=
  let orderItems := prepareOrderItems es.line_items
  let shippingCost := (es.shipping_cost.map (fun sc => sc.amount_total)).getD 0
  let shippingName :=
    let dn := es.shipping_cost.bind (fun sc => sc.display_name)
    if jsTruthyStr dn then dn.getD "" else "Standard Shipping"
  { session_id := sess.id
    user_id := sess.metadata.userId
    order_id := sess.metadata.orderId
    total := sess.amount_total
    items := orderItems
    shipping_cost := shippingCost
    shipping_name := shippingName
    tax_amount := (parseIntJs sess.metadata.taxAmount).getD 0
    coupon_id := if sess.metadata.couponId ≠ "" then some sess.metadata.couponId else none
    coupon_code := if sess.metadata.couponCode ≠ "" then some sess.metadata.couponCode else none
    discount_amount := (parseIntJs sess.metadata.discountAmount).getD 0 }

/-- The observable external effects of one webhook invocation. -/
inductive WebhookEffect where
  | retrieveSession (id : String)
  | dbProcessWebhook (call : DbCall)
  | dbUpdateCouponUsage (couponId userId : String)
  deriving Repr, DecidableEq

/-- HTTP outcome of one webhook invocation together with the effects it
performed, in order. -/
structure WebhookOutcome where
  status : ℕ
  effects : List WebhookEffect
  deriving Repr, DecidableEq

/-- Effects of processing one `checkout.session.completed` event
(lines 302–370): re-fetch, persist, then the coupon-usage increment
when the coupon id read from metadata is truthy. -/
def webhookCompletedEffects (sess : StripeSession) (es : ExpandedSession) : List WebhookEffect :=
  let call := webhookDbCall sess es
  [.retrieveSession sess.id, .dbProcessWebhook call] ++
    (match call.coupon_id with
     | some cid => [.dbUpdateCouponUsage cid sess.metadata.userId]
     | none => [])

/-- Result of `stripe.webhooks.constructEvent` on the raw body, the
signature header and the secret: a decoded event or a signature
error. -/
inductive VerifyResult where
  | ok (eventType : String) (sess : StripeSession)
  | fail (msg : String)
  deriving Repr, DecidableEq

/-- The `POST /webhook` handler (lines 287–378), parameterized by the
signature verifier of the gateway and by session retrieval: verification
runs first on the exact raw bytes; on failure the handler answers 400
having performed no effect. -/
def webhookHandler (verify : String → String → String → VerifyResult)
    (retrieve : String → ExpandedSession)
    (rawBody sig secret : String) : WebhookOutcome :=
  match verify rawBody sig secret with
  | .fail _ => { status := 400, effects := [] }
  | .ok eventType sess =>
      if eventType = "checkout.session.completed" then
        { status := 200, effects := webhookCompletedEffects sess (retrieve sess.id) }
      else
        { status := 200, effects := [] }

/-- Does an effect call the `update_coupon_usage` RPC? -/
def isCouponUsageEffect : WebhookEffect → Bool
  | .dbUpdateCouponUsage _ _ => true
  | _ => false

/-! ### Concrete sample inputs used by witnesses and counterexamples -/

/-- A sample cart item: unit price 1000 minor units, quantity 2. -/
def sampleItem : CartItem :=
  { id := "p1", name := "Cologne", description := none, image_url := none,
    price := 1000, quantity := 2 }

/-- A sample cart item with subtotal contribution 100. -/
def sampleItem100 : CartItem :=
  { id := "p2", name := "Sample", description := none, image_url := none,
    price := 100, quantity := 1 }

/-- A fixed-amount coupon worth 50 minor units. -/
def fixedCoupon50 : Coupon :=
  { id := "c-fix", code := "FIX50", discount_type := "fixed_amount", discount_value := 50 }

/-- A percentage coupon of 200 percent. -/
def pctCoupon200 : Coupon :=
  { id := "c-pct", code := "PCT200", discount_type := "percentage", discount_value := 200 }

/-- A free-shipping coupon. -/
def freeShipCoupon : Coupon :=
  { id := "c-ship", code := "SHIPFREE", discount_type := "free_shipping", discount_value := 0 }

/-- A coupon whose discount type is none of the five recognized ones. -/
def unknownCoupon : Coupon :=
  { id := "c-unk", code := "MYSTERY", discount_type := "bogus", discount_value := 5 }

/-- A coupon with an unrecognized discount type and an empty id. -/
def emptyIdCoupon : Coupon :=
  { id := "", code := "EMPTYID", discount_type := "bogus", discount_value := 5 }

/-- An expanded session with no line items, used as a stand-in gateway
response where its content is irrelevant. -/
def emptyExpandedSession : ExpandedSession :=
  { line_items := [], shipping_cost := none }

/-! ### Helper lemmas -/

/-- Evaluation rule for `jsRound` from the floor characterization. -/
theorem jsRound_eq_of {q : ℚ} {z : ℤ} (h1 : (z : ℚ) ≤ q + 1/2) (h2 : q + 1/2 < z + 1) :
    jsRound q = z := Int.floor_eq_iff.mpr ⟨h1, h2⟩

/-- `jsRound` is monotone. -/
theorem jsRound_le_jsRound {p q : ℚ} (h : p ≤ q) : jsRound p ≤ jsRound q :=
  Int.floor_le_floor (by linarith)

/-- `jsRound` fixes integers. -/
theorem jsRound_natCast (n : ℕ) : jsRound (n : ℚ) = (n : ℤ) := by
  refine jsRound_eq_of (by push_cast; linarith) (by push_cast; linarith)

/-- The fold computing the subtotal is the sum over the mapped list. -/
theorem calcSubtotal_eq_sum (items : List CartItem) :
    calcSubtotal items = (items.map (fun it => it.price * it.quantity)).sum := by
  have aux : ∀ (l : List CartItem) (n : ℕ),
      l.foldl (fun sum item => sum + item.price * item.quantity) n
        = n + (l.map (fun it => it.price * it.quantity)).sum := by
    intro l
    induction l with
    | nil => simp
    | cons x xs ih => intro n; simp [ih]; omega
  simpa using aux items 0

/-- The subtotal field of the priced cart is the computed subtotal. -/
theorem priceCart_subtotal (items : List CartItem) (coupon : Option Coupon) :
    (priceCart items coupon).subtotal = calcSubtotal items := by
  cases coupon <;> rfl

/-- Coupon branch, `skipShipping` output. -/
theorem applyCoupon_skipShipping (s : ℕ) (c : Coupon) :
    (applyCoupon s c).2.1
      = (c.discount_type = "free_shipping" || c.discount_type = "full_discount") := by
  unfold applyCoupon
  split_ifs with h1 h2 h3 h4 h5 <;> simp_all

/-- Coupon branch, `skipTax` output. -/
theorem applyCoupon_skipTax (s : ℕ) (c : Coupon) :
    (applyCoupon s c).2.2
      = (c.discount_type = "no_tax" || c.discount_type = "full_discount") := by
  unfold applyCoupon
  split_ifs with h1 h2 h3 h4 h5 <;> simp_all

/-- `skipShipping` holds exactly for `free_shipping` and `full_discount`
coupons. -/
theorem priceCart_skipShipping_iff (items : List CartItem) (coupon : Option Coupon) :
    (priceCart items coupon).skipShipping = true
      ↔ ∃ c, coupon = some c
          ∧ (c.discount_type = "free_shipping" ∨ c.discount_type = "full_discount") := by
  cases coupon with
  | none => simp [priceCart]
  | some c => simp [priceCart, applyCoupon_skipShipping]

/-- `skipTax` holds exactly for `no_tax` and `full_discount` coupons. -/
theorem priceCart_skipTax_iff (items : List CartItem) (coupon : Option Coupon) :
    (priceCart items coupon).skipTax = true
      ↔ ∃ c, coupon = some c
          ∧ (c.discount_type = "no_tax" ∨ c.discount_type = "full_discount") := by
  cases coupon with
  | none => simp [priceCart]
  | some c => simp [priceCart, applyCoupon_skipTax]

/-- The tax amount is the rounded product, gated by `skipTax`. -/
theorem priceCart_taxAmount (items : List CartItem) (coupon : Option Coupon) :
    (priceCart items coupon).taxAmount
      = if (priceCart items coupon).skipTax then 0
        else jsRound ((calcSubtotal items : ℚ) * taxRate) := by
  cases coupon <;> simp [priceCart]

/-- The latched coupon fields of the priced cart. -/
theorem priceCart_couponFields (items : List CartItem) (c : Coupon) :
    (priceCart items (some c)).couponId = some c.id
      ∧ (priceCart items (some c)).couponCode = some c.code := by
  exact ⟨rfl, rfl⟩

/-- A synthetic tax line item never equals a cart-item line item: the
former has no `productId` metadata, the latter always does. -/
theorem taxLineItem_ne_cartLineItem (t : ℤ) (item : CartItem) :
    taxLineItem t ≠ cartLineItem item := by
  intro h
  have h2 := congrArg (fun li => li.price_data.product_data.metadata.productId) h
  simp [taxLineItem, cartLineItem] at h2

/-- A synthetic tax line item never equals a synthetic discount line
item: their descriptions differ. -/
theorem taxLineItem_ne_discountLineItem (t : ℤ) (code : String) (d : ℤ) :
    taxLineItem t ≠ discountLineItem code d := by
  intro h
  have h2 := congrArg (fun li => li.price_data.product_data.description) h
  simp [taxLineItem, discountLineItem] at h2

/-- Reversed orientation of the preceding inequality. -/
theorem cartLineItem_ne_taxLineItem (item : CartItem) (t : ℤ) :
    cartLineItem item ≠ taxLineItem t :=
  fun h => taxLineItem_ne_cartLineItem t item h.symm

/-- A tax line item never occurs among the per-cart-item line items. -/
theorem taxLineItem_not_mem_map (t : ℤ) (items : List CartItem) :
    taxLineItem t ∉ items.map cartLineItem := by
  intro hmem
  rcases List.mem_map.mp hmem with ⟨item, _, heq⟩
  exact taxLineItem_ne_cartLineItem t item heq.symm

/-- Coupon branch, fixed-amount discount. -/
theorem applyCoupon_fixed (s : ℕ) (c : Coupon) (h : c.discount_type = "fixed_amount") :
    (applyCoupon s c).1 = min c.discount_value (s : ℤ) := by
  unfold applyCoupon
  rw [h]
  simp

/-- Coupon branch, percentage discount. -/
theorem applyCoupon_percentage (s : ℕ) (c : Coupon) (h : c.discount_type = "percentage") :
    (applyCoupon s c).1 = jsRound ((c.discount_value : ℚ) / 100 * (s : ℚ)) := by
  unfold applyCoupon
  rw [h]
  simp

/-- Fixed-amount discount in the priced cart. -/
theorem priceCart_discount_fixed (items : List CartItem) (c : Coupon)
    (h : c.discount_type = "fixed_amount") :
    (priceCart items (some c)).discountAmount
      = min c.discount_value ((calcSubtotal items : ℕ) : ℤ) := by
  simp [priceCart, applyCoupon_fixed _ _ h]

/-- Percentage discount in the priced cart. -/
theorem priceCart_discount_percentage (items : List CartItem) (c : Coupon)
    (h : c.discount_type = "percentage") :
    (priceCart items (some c)).discountAmount
      = jsRound ((c.discount_value : ℚ) / 100 * ((calcSubtotal items : ℕ) : ℚ)) := by
  simp [priceCart, applyCoupon_percentage _ _ h]

/-- A percentage of at most 100 rounds to at most the subtotal. -/
theorem jsRound_percent_le (v : ℤ) (s : ℕ) (hv : v ≤ 100) :
    jsRound ((v : ℚ) / 100 * (s : ℚ)) ≤ (s : ℤ) := by
  have hprod : ((v : ℚ) / 100 * (s : ℚ)) ≤ (s : ℚ) := by
    have hs : (0 : ℚ) ≤ (s : ℚ) := by positivity
    have hv1 : (v : ℚ) / 100 ≤ 1 := by
      rw [div_le_one (by norm_num)]
      exact_mod_cast hv
    nlinarith
  have hmono := jsRound_le_jsRound hprod
  have hfix := jsRound_natCast s
  omega

/-! ### Claim theorems -/

/-- Claim C3, counterexample: a non-empty `items` array whose only
entry lacks both `price` and `quantity` passes the validation gate and
the handler proceeds to the gateway call, instead of answering 400 as
the claim states. -/
theorem claim3_counterexample :
    createCheckoutGate (ItemsField.arr [{ price := none, quantity := none }])
      = GateResult.proceedsToGateway := by
  rfl

/-- Claim C3 (amended): the handler answers 400 with the validation
message exactly when the `items` field is missing, not an array, or an
empty array — and only then; the fields of individual entries are never
inspected before the gateway call. -/
theorem claim3_validation_gate (items : ItemsField) :
    createCheckoutGate items = GateResult.badRequest 400 "Invalid items data"
      ↔ (items = ItemsField.missing ∨ items = ItemsField.nonArray
          ∨ items = ItemsField.arr []) := by
  cases items with
  | missing => simp [createCheckoutGate, itemsInvalid]
  | nonArray => simp [createCheckoutGate, itemsInvalid]
  | arr l => cases l <;> simp [createCheckoutGate, itemsInvalid]

/-- Claim C5: when signature verification of the raw webhook body
fails, the handler answers 400 and performs no effect at all — no
gateway session retrieval and no database write. -/
theorem claim5_signature_gate
    (verify : String → String → String → VerifyResult)
    (retrieve : String → ExpandedSession) (rawBody sig secret msg : String)
    (h : verify rawBody sig secret = VerifyResult.fail msg) :
    (webhookHandler verify retrieve rawBody sig secret).status = 400
    ∧ (webhookHandler verify retrieve rawBody sig secret).effects = [] := by
  simp [webhookHandler, h]

/-- Witness for claim C5 at a concrete failing verifier and request. -/
theorem claim5_witness :
    ((fun _ _ _ => VerifyResult.fail "bad signature") "raw" "sig" "secret"
        = VerifyResult.fail "bad signature")
    ∧ ((webhookHandler (fun _ _ _ => VerifyResult.fail "bad signature")
          (fun _ => emptyExpandedSession) "raw" "sig" "secret").status = 400
      ∧ (webhookHandler (fun _ _ _ => VerifyResult.fail "bad signature")
          (fun _ => emptyExpandedSession) "raw" "sig" "secret").effects = []) :=
  ⟨rfl, claim5_signature_gate (fun _ _ _ => VerifyResult.fail "bad signature")
    (fun _ => emptyExpandedSession) "raw" "sig" "secret" "bad signature" rfl⟩

/-- Claim C6: the order items sent to persistence are exactly the
expanded line items carrying a truthy `productId` in product metadata,
each mapped to (product id, quantity, price at time, optional image
URL); and splicing a synthetic tax or discount line item — which
carries no `productId` — anywhere into the line-item list never changes
the computed order items. -/
theorem claim6_genuine_items_filter :
    (∀ (lis : List ExpLineItem) (oi : OrderItem),
        oi ∈ prepareOrderItems lis
          ↔ ∃ it, it ∈ lis ∧ jsTruthyStr it.product_metadata.productId = true
              ∧ oi = mkOrderItem it)
    ∧ (∀ (l₁ l₂ : List ExpLineItem) (t : ℤ),
        prepareOrderItems (l₁ ++ expand (taxLineItem t) :: l₂)
          = prepareOrderItems (l₁ ++ l₂))
    ∧ (∀ (l₁ l₂ : List ExpLineItem) (code : String) (d : ℤ),
        prepareOrderItems (l₁ ++ expand (discountLineItem code d) :: l₂)
          = prepareOrderItems (l₁ ++ l₂)) := by
  refine ⟨?_, ?_, ?_⟩
  · intro lis oi
    simp only [prepareOrderItems, List.mem_map, List.mem_filter]
    constructor
    · rintro ⟨it, ⟨hmem, hp⟩, heq⟩
      exact ⟨it, hmem, hp, heq.symm⟩
    · rintro ⟨it, hmem, hp, heq⟩
      exact ⟨it, ⟨hmem, hp⟩, heq.symm⟩
  · intro l₁ l₂ t
    simp [prepareOrderItems, List.filter_append, List.filter_cons, expand, taxLineItem,
      jsTruthyStr]
  · intro l₁ l₂ code d
    simp [prepareOrderItems, List.filter_append, List.filter_cons, expand, discountLineItem,
      jsTruthyStr]

/-- Claim C7: the order identifier is a parameter fixed at
session-creation time: it is stamped into the session metadata as a
string, and the order id the webhook reconciler hands to the database
for a session whose metadata the gateway returned unchanged is that
very string. -/
theorem claim7_order_id_roundtrip (items : List CartItem) (coupon : Option Coupon)
    (userId email orderId sessId : String) (total : ℤ) (es : ExpandedSession) :
    (buildSessionParams items coupon userId email orderId).metadata.orderId
        = MetaValue.str orderId
    ∧ (webhookDbCall
        { id := sessId
          metadata := wireOf (buildSessionParams items coupon userId email orderId).metadata
          amount_total := total } es).order_id = orderId :=
  ⟨rfl, rfl⟩

/-- Claim C4: for every accepted (non-empty) cart, the subtotal is the
sum of unit price times quantity over the items; the tax amount is the
half-up rounding of subtotal times 0.08875 when tax is not skipped and
0 when it is; and tax is skipped exactly for `no_tax` and
`full_discount` coupons. -/
theorem claim4_subtotal_and_tax (items : List CartItem) (coupon : Option Coupon)
    (_hne : items ≠ []) :
    (priceCart items coupon).subtotal = (items.map (fun it => it.price * it.quantity)).sum
    ∧ ((priceCart items coupon).skipTax = false →
        (priceCart items coupon).taxAmount
          = jsRound (((priceCart items coupon).subtotal : ℚ) * taxRate))
    ∧ ((priceCart items coupon).skipTax = true → (priceCart items coupon).taxAmount = 0)
    ∧ ((priceCart items coupon).skipTax = true
        ↔ ∃ c, coupon = some c
            ∧ (c.discount_type = "no_tax" ∨ c.discount_type = "full_discount")) := by
  refine ⟨?_, ?_, ?_, priceCart_skipTax_iff items coupon⟩
  · rw [priceCart_subtotal, calcSubtotal_eq_sum]
  · intro hst
    rw [priceCart_taxAmount, hst, priceCart_subtotal]
    simp
  · intro hst
    rw [priceCart_taxAmount, hst]
    simp

/-- Witness for claim C4 at a concrete one-item cart with no coupon. -/
theorem claim4_witness :
    ([sampleItem] ≠ ([] : List CartItem))
    ∧ ((priceCart [sampleItem] none).subtotal
          = ([sampleItem].map (fun it => it.price * it.quantity)).sum
      ∧ ((priceCart [sampleItem] none).skipTax = false →
          (priceCart [sampleItem] none).taxAmount
            = jsRound (((priceCart [sampleItem] none).subtotal : ℚ) * taxRate))
      ∧ ((priceCart [sampleItem] none).skipTax = true →
          (priceCart [sampleItem] none).taxAmount = 0)
      ∧ ((priceCart [sampleItem] none).skipTax = true
          ↔ ∃ c, (none : Option Coupon) = some c
              ∧ (c.discount_type = "no_tax" ∨ c.discount_type = "full_discount"))) :=
  ⟨by simp, claim4_subtotal_and_tax [sampleItem] none (by simp)⟩

/-- Claim C2, counterexample: a `percentage` coupon of 200 on a cart of
subtotal 100 yields a discount of 200, which exceeds the subtotal — so
the discount does not always stay below the subtotal. -/
theorem claim2_counterexample :
    (priceCart [sampleItem100] (some pctCoupon200)).subtotal = 100
    ∧ (priceCart [sampleItem100] (some pctCoupon200)).discountAmount = 200
    ∧ ¬ ((priceCart [sampleItem100] (some pctCoupon200)).discountAmount
          ≤ ((priceCart [sampleItem100] (some pctCoupon200)).subtotal : ℤ)) := by
  have hsub : (priceCart [sampleItem100] (some pctCoupon200)).subtotal = 100 := by
    rw [priceCart_subtotal]; rfl
  have hd : (priceCart [sampleItem100] (some pctCoupon200)).discountAmount = 200 := by
    rw [priceCart_discount_percentage [sampleItem100] pctCoupon200 rfl]
    have hc : calcSubtotal [sampleItem100] = 100 := rfl
    rw [hc]
    show jsRound ((((200 : ℤ) : ℚ)) / 100 * ((100 : ℕ) : ℚ)) = 200
    refine jsRound_eq_of (by norm_num) (by norm_num)
  refine ⟨hsub, hd, ?_⟩
  rw [hsub, hd]
  norm_num

/-- Claim C2 (amended): `fixed_amount` discounts equal
min(value, subtotal) and never exceed the subtotal; `percentage`
discounts equal the half-up rounding of value/100 times the subtotal,
and stay at or below the subtotal provided the coupon value is at most
100 percent. -/
theorem claim2_discount_formula (items : List CartItem) (c : Coupon) :
    (c.discount_type = "fixed_amount" →
      (priceCart items (some c)).discountAmount
          = min c.discount_value (((priceCart items (some c)).subtotal : ℕ) : ℤ)
        ∧ (priceCart items (some c)).discountAmount
            ≤ (((priceCart items (some c)).subtotal : ℕ) : ℤ))
    ∧ (c.discount_type = "percentage" →
      (priceCart items (some c)).discountAmount
          = jsRound ((c.discount_value : ℚ) / 100
              * (((priceCart items (some c)).subtotal : ℕ) : ℚ))
        ∧ (c.discount_value ≤ 100 →
            (priceCart items (some c)).discountAmount
              ≤ (((priceCart items (some c)).subtotal : ℕ) : ℤ))) := by
  constructor
  · intro h
    rw [priceCart_subtotal, priceCart_discount_fixed items c h]
    exact ⟨rfl, min_le_right _ _⟩
  · intro h
    rw [priceCart_subtotal, priceCart_discount_percentage items c h]
    exact ⟨rfl, fun hv => jsRound_percent_le c.discount_value (calcSubtotal items) hv⟩

/-- Witness for claim C2: the fixed-amount branch at a concrete cart
and coupon. -/
theorem claim2_witness :
    (fixedCoupon50.discount_type = "fixed_amount")
    ∧ ((priceCart [sampleItem100] (some fixedCoupon50)).discountAmount
          = min fixedCoupon50.discount_value
              (((priceCart [sampleItem100] (some fixedCoupon50)).subtotal : ℕ) : ℤ)
      ∧ (priceCart [sampleItem100] (some fixedCoupon50)).discountAmount
          ≤ (((priceCart [sampleItem100] (some fixedCoupon50)).subtotal : ℕ) : ℤ)) :=
  ⟨rfl, (claim2_discount_formula [sampleItem100] fixedCoupon50).1 rfl⟩

/-- Claim C8: the two fixed shipping tiers (499 minor units, 5–7
business days; 999 minor units, 2–3 business days) and US shipping
address collection are attached exactly when shipping is not skipped,
and shipping is skipped exactly for `free_shipping` and `full_discount`
coupons. -/
theorem claim8_shipping_options (items : List CartItem) (coupon : Option Coupon)
    (userId email orderId : String) :
    ((priceCart items coupon).skipShipping = false →
      (buildSessionParams items coupon userId email orderId).shipping_options
          = some [ { amount := 499, currency := "usd", display_name := "Standard Shipping",
                     delivery_min_days := 5, delivery_max_days := 7 },
                   { amount := 999, currency := "usd", display_name := "Express Shipping",
                     delivery_min_days := 2, delivery_max_days := 3 } ]
        ∧ (buildSessionParams items coupon userId email orderId).shipping_address_collection
            = some ["US"])
    ∧ ((priceCart items coupon).skipShipping = true →
        (buildSessionParams items coupon userId email orderId).shipping_options = none
        ∧ (buildSessionParams items coupon userId email orderId).shipping_address_collection
            = none)
    ∧ ((priceCart items coupon).skipShipping = true
        ↔ ∃ c, coupon = some c
            ∧ (c.discount_type = "free_shipping" ∨ c.discount_type = "full_discount")) := by
  refine ⟨?_, ?_, priceCart_skipShipping_iff items coupon⟩
  · intro h
    constructor
    · simp [buildSessionParams, h, shippingOptions]
    · simp [buildSessionParams, h]
  · intro h
    constructor
    · simp [buildSessionParams, h]
    · simp [buildSessionParams, h]

/-- Witness for claim C8: with a free-shipping coupon the shipping
fields are absent; with no coupon they are attached. -/
theorem claim8_witness :
    ((priceCart [sampleItem] (some freeShipCoupon)).skipShipping = true
      ∧ (buildSessionParams [sampleItem] (some freeShipCoupon) "u1" "a@b.c" "oid-1").shipping_options
          = none
      ∧ (buildSessionParams [sampleItem] (some freeShipCoupon) "u1" "a@b.c" "oid-1").shipping_address_collection
          = none)
    ∧ ((priceCart [sampleItem] none).skipShipping = false
      ∧ (buildSessionParams [sampleItem] none "u1" "a@b.c" "oid-1").shipping_options
          = some [ { amount := 499, currency := "usd", display_name := "Standard Shipping",
                     delivery_min_days := 5, delivery_max_days := 7 },
                   { amount := 999, currency := "usd", display_name := "Express Shipping",
                     delivery_min_days := 2, delivery_max_days := 3 } ]
      ∧ (buildSessionParams [sampleItem] none "u1" "a@b.c" "oid-1").shipping_address_collection
          = some ["US"]) := by
  have h1 : (priceCart [sampleItem] (some freeShipCoupon)).skipShipping = true := by
    simp [priceCart, applyCoupon, freeShipCoupon]
  have h0 : (priceCart [sampleItem] none).skipShipping = false := rfl
  have w1 := (claim8_shipping_options [sampleItem] (some freeShipCoupon) "u1" "a@b.c" "oid-1").2.1 h1
  have w0 := (claim8_shipping_options [sampleItem] none "u1" "a@b.c" "oid-1").1 h0
  exact ⟨⟨h1, w1⟩, ⟨h0, w0⟩⟩

/-- Claim C1: the synthetic tax line item is appended to the gateway
line items exactly when shipping is not skipped and the tax amount is
positive; consequently `free_shipping`, `no_tax` and `full_discount`
coupons all suppress it. -/
theorem claim1_tax_line (items : List CartItem) (coupon : Option Coupon)
    (userId email orderId : String) :
    (taxLineItem (priceCart items coupon).taxAmount
        ∈ (buildSessionParams items coupon userId email orderId).line_items
      ↔ ((priceCart items coupon).skipShipping = false
          ∧ 0 < (priceCart items coupon).taxAmount))
    ∧ (∀ c, coupon = some c →
        (c.discount_type = "free_shipping" ∨ c.discount_type = "no_tax"
          ∨ c.discount_type = "full_discount") →
        taxLineItem (priceCart items coupon).taxAmount
          ∉ (buildSessionParams items coupon userId email orderId).line_items) := by
  have hmain : taxLineItem (priceCart items coupon).taxAmount
      ∈ (buildSessionParams items coupon userId email orderId).line_items
      ↔ ((priceCart items coupon).skipShipping = false
          ∧ 0 < (priceCart items coupon).taxAmount) := by
    unfold buildSessionParams
    cases hS : (priceCart items coupon).skipShipping <;>
      by_cases hT : 0 < (priceCart items coupon).taxAmount <;>
        by_cases hD : 0 < (priceCart items coupon).discountAmount <;>
          simp [hS, hT, hD, List.mem_append, taxLineItem_not_mem_map,
            taxLineItem_ne_discountLineItem, cartLineItem_ne_taxLineItem]
  refine ⟨hmain, ?_⟩
  rintro c rfl hty hmem
  have h2 := hmain.mp hmem
  rcases hty with h | h | h
  · have hs : (priceCart items (some c)).skipShipping = true :=
      (priceCart_skipShipping_iff items (some c)).mpr ⟨c, rfl, Or.inl h⟩
    rw [hs] at h2
    exact absurd h2.1 (by simp)
  · have hst : (priceCart items (some c)).skipTax = true :=
      (priceCart_skipTax_iff items (some c)).mpr ⟨c, rfl, Or.inl h⟩
    have htx := priceCart_taxAmount items (some c)
    rw [hst] at htx
    simp at htx
    have hpos := h2.2
    omega
  · have hs : (priceCart items (some c)).skipShipping = true :=
      (priceCart_skipShipping_iff items (some c)).mpr ⟨c, rfl, Or.inr h⟩
    rw [hs] at h2
    exact absurd h2.1 (by simp)

/-- Witness for claim C1: a free-shipping coupon on a concrete cart
suppresses the tax line item. -/
theorem claim1_witness :
    taxLineItem (priceCart [sampleItem] (some freeShipCoupon)).taxAmount
      ∉ (buildSessionParams [sampleItem] (some freeShipCoupon) "u1" "a@b.c" "oid-1").line_items :=
  (claim1_tax_line [sampleItem] (some freeShipCoupon) "u1" "a@b.c" "oid-1").2
    freeShipCoupon rfl (Or.inl rfl)

/-- Claim C9, counterexample: for a concrete cart with subtotal 2000
the builder stamps the tax amount into the session metadata as the raw
number 178, not as a string. -/
theorem claim9_counterexample :
    (buildSessionParams [sampleItem] none "u1" "a@b.c" "oid-1").metadata.taxAmount
      = MetaValue.num 178
    ∧ MetaValue.isStr
        ((buildSessionParams [sampleItem] none "u1" "a@b.c" "oid-1").metadata.taxAmount)
      = false := by
  have htax : (priceCart [sampleItem] none).taxAmount = 178 := by
    have h0 : (priceCart [sampleItem] none).skipTax = false := rfl
    rw [priceCart_taxAmount, h0]
    have hc : calcSubtotal [sampleItem] = 2000 := rfl
    simp only [Bool.false_eq_true, if_false, hc]
    exact jsRound_eq_of (by norm_num [taxRate]) (by norm_num [taxRate])
  have hmt : (buildSessionParams [sampleItem] none "u1" "a@b.c" "oid-1").metadata.taxAmount
      = MetaValue.num (priceCart [sampleItem] none).taxAmount := rfl
  rw [hmt, htax]
  exact ⟨rfl, rfl⟩

/-- Claim C9 (amended): the coupon id, coupon code and discount amount
are stamped into session metadata as strings, with the empty string —
never null — standing in for an absent coupon, and the discount amount
stringified; the tax amount, however, is stamped as a raw number, not a
string. -/
theorem claim9_metadata_values (items : List CartItem) (coupon : Option Coupon)
    (userId email orderId : String) :
    ((buildSessionParams items coupon userId email orderId).metadata.couponId
        = MetaValue.str ((priceCart items coupon).couponId.getD "")
      ∧ (buildSessionParams items coupon userId email orderId).metadata.couponCode
        = MetaValue.str ((priceCart items coupon).couponCode.getD "")
      ∧ (buildSessionParams items coupon userId email orderId).metadata.discountAmount
        = MetaValue.str (toString (priceCart items coupon).discountAmount)
      ∧ (buildSessionParams items coupon userId email orderId).metadata.taxAmount
        = MetaValue.num (priceCart items coupon).taxAmount)
    ∧ (coupon = none →
        (buildSessionParams items coupon userId email orderId).metadata.couponId
          = MetaValue.str ""
        ∧ (buildSessionParams items coupon userId email orderId).metadata.couponCode
          = MetaValue.str "") := by
  refine ⟨⟨rfl, rfl, rfl, rfl⟩, ?_⟩
  rintro rfl
  exact ⟨rfl, rfl⟩

/-- Witness for claim C9: the empty-string sentinels at a concrete
couponless request. -/
theorem claim9_witness :
    ((none : Option Coupon) = none)
    ∧ ((buildSessionParams [sampleItem] none "u1" "a@b.c" "oid-1").metadata.couponId
        = MetaValue.str ""
      ∧ (buildSessionParams [sampleItem] none "u1" "a@b.c" "oid-1").metadata.couponCode
        = MetaValue.str "") :=
  ⟨rfl, (claim9_metadata_values [sampleItem] none "u1" "a@b.c" "oid-1").2 rfl⟩

/-- An unrecognized discount type falls through the whole coupon
branch. -/
theorem applyCoupon_unknown (s : ℕ) (c : Coupon)
    (h1 : c.discount_type ≠ "fixed_amount") (h2 : c.discount_type ≠ "percentage")
    (h3 : c.discount_type ≠ "free_shipping") (h4 : c.discount_type ≠ "no_tax")
    (h5 : c.discount_type ≠ "full_discount") :
    applyCoupon s c = (0, false, false) := by
  unfold applyCoupon
  rw [if_neg h1, if_neg h2, if_neg h3, if_neg h4, if_neg h5]

/-- With an unrecognized discount type the priced cart agrees with the
couponless one except for the latched coupon id and code. -/
theorem priceCart_unknown (items : List CartItem) (c : Coupon)
    (h1 : c.discount_type ≠ "fixed_amount") (h2 : c.discount_type ≠ "percentage")
    (h3 : c.discount_type ≠ "free_shipping") (h4 : c.discount_type ≠ "no_tax")
    (h5 : c.discount_type ≠ "full_discount") :
    priceCart items (some c)
      = { priceCart items none with couponId := some c.id, couponCode := some c.code } := by
  simp [priceCart, applyCoupon_unknown (calcSubtotal items) c h1 h2 h3 h4 h5]

/-- Claim C10, counterexample: a coupon with an unrecognized discount
type but an empty id is priced as if absent and its (empty) id is
stamped, yet the webhook performs no coupon-usage increment — the
increment is not unconditional for unknown-type coupons. -/
theorem claim10_counterexample :
    (priceCart [sampleItem] (some emptyIdCoupon)).discountAmount = 0
    ∧ (buildSessionParams [sampleItem] (some emptyIdCoupon) "u1" "a@b.c" "oid-1").metadata.couponId
        = MetaValue.str emptyIdCoupon.id
    ∧ (webhookCompletedEffects
          { id := "s1"
            metadata := wireOf
              (buildSessionParams [sampleItem] (some emptyIdCoupon) "u1" "a@b.c" "oid-1").metadata
            amount_total := 2178 }
          emptyExpandedSession).any isCouponUsageEffect = false := by
  refine ⟨rfl, rfl, ?_⟩
  rfl

/-- Claim C10 (amended): for a supplied coupon whose discount type is
none of the five recognized ones, the pricing calculator leaves the
discount at 0 and both skip flags false, the session is priced exactly
as with no coupon, and the coupon id and code are still stamped into
the metadata; provided the coupon id is a non-empty string, the webhook
reconciler still invokes the coupon-usage increment for it. -/
theorem claim10_unknown_coupon (items : List CartItem) (c : Coupon)
    (userId email orderId sessId : String) (total : ℤ) (es : ExpandedSession)
    (h1 : c.discount_type ≠ "fixed_amount") (h2 : c.discount_type ≠ "percentage")
    (h3 : c.discount_type ≠ "free_shipping") (h4 : c.discount_type ≠ "no_tax")
    (h5 : c.discount_type ≠ "full_discount") (hid : c.id ≠ "") :
    ((priceCart items (some c)).discountAmount = 0
      ∧ (priceCart items (some c)).skipShipping = false
      ∧ (priceCart items (some c)).skipTax = false)
    ∧ priceCart items (some c)
        = { priceCart items none with couponId := some c.id, couponCode := some c.code }
    ∧ (buildSessionParams items (some c) userId email orderId).line_items
        = (buildSessionParams items none userId email orderId).line_items
    ∧ (buildSessionParams items (some c) userId email orderId).shipping_options
        = (buildSessionParams items none userId email orderId).shipping_options
    ∧ (buildSessionParams items (some c) userId email orderId).shipping_address_collection
        = (buildSessionParams items none userId email orderId).shipping_address_collection
    ∧ (buildSessionParams items (some c) userId email orderId).metadata.couponId
        = MetaValue.str c.id
    ∧ (buildSessionParams items (some c) userId email orderId).metadata.couponCode
        = MetaValue.str c.code
    ∧ WebhookEffect.dbUpdateCouponUsage c.id userId ∈
        webhookCompletedEffects
          { id := sessId
            metadata := wireOf
              (buildSessionParams items (some c) userId email orderId).metadata
            amount_total := total } es := by
  have hac := applyCoupon_unknown (calcSubtotal items) c h1 h2 h3 h4 h5
  have hpc := priceCart_unknown items c h1 h2 h3 h4 h5
  have hd0 : (priceCart items none).discountAmount = 0 := rfl
  refine ⟨?_, hpc, ?_, ?_, ?_, rfl, rfl, ?_⟩
  · exact ⟨by simp [priceCart, hac], by simp [priceCart, hac], by simp [priceCart, hac]⟩
  · simp [buildSessionParams, hpc, hd0]
  · simp [buildSessionParams, hpc]
  · simp [buildSessionParams, hpc]
  · show WebhookEffect.dbUpdateCouponUsage c.id userId ∈
      webhookCompletedEffects _ es
    have hcallid : (webhookDbCall
        { id := sessId
          metadata := wireOf
            (buildSessionParams items (some c) userId email orderId).metadata
          amount_total := total } es).coupon_id = some c.id := by
      show (if c.id ≠ "" then some c.id else none) = some c.id
      rw [if_pos hid]
    have huser : (wireOf
        (buildSessionParams items (some c) userId email orderId).metadata).userId
        = userId := rfl
    simp only [webhookCompletedEffects, hcallid]
    simp [huser]

/-- Witness for claim C10 at a concrete cart and a coupon of discount
type `bogus` with a non-empty id. -/
theorem claim10_witness :
    (unknownCoupon.discount_type ≠ "fixed_amount")
    ∧ (unknownCoupon.discount_type ≠ "percentage")
    ∧ (unknownCoupon.discount_type ≠ "free_shipping")
    ∧ (unknownCoupon.discount_type ≠ "no_tax")
    ∧ (unknownCoupon.discount_type ≠ "full_discount")
    ∧ (unknownCoupon.id ≠ "")
    ∧ WebhookEffect.dbUpdateCouponUsage unknownCoupon.id "u1" ∈
        webhookCompletedEffects
          { id := "s1"
            metadata := wireOf
              (buildSessionParams [sampleItem] (some unknownCoupon) "u1" "a@b.c" "oid-1").metadata
            amount_total := 2178 }
          emptyExpandedSession :=
  ⟨by decide, by decide, by decide, by decide, by decide, by decide,
    (claim10_unknown_coupon [sampleItem] unknownCoupon "u1" "a@b.c" "oid-1" "s1" 2178
      emptyExpandedSession (by decide) (by decide) (by decide) (by decide) (by decide)
      (by decide)).2.2.2.2.2.2.2⟩

end Cologne
